import Mathlib

/-!
Verification development for the Acca-Tracker repository.

The Python sources are shallowly embedded: dictionaries become association
lists over an inductive value type, wall-clock time becomes a natural number
of minutes since 1970-01-01 00:00 (local), files become association lists
from file name to structured content, and the HTML DOM handed to the scraper
is abstracted to the text fragments the parsing code actually inspects.
Serialization, gzip compression and disk-failure paths only affect the byte
encoding of a file, never its logical content, and are therefore not part of
the state model (every modelled save succeeds, as the sources assume on the
happy path).
-/

namespace AccaTracker

/-! ## Python value model

A Python value stored in one of the dictionaries the application passes
around: either a string or an integer.  Dictionaries are association lists
in insertion order, mirroring CPython dict semantics. -/

inductive PyVal where
  | str (s : String)
  | int (n : Int)
deriving Repr, DecidableEq

abbrev PyDict := List (String × PyVal)

/-- Mirrors `d.get(k)` / `d[k]` on a Python dict: first binding wins
(association lists built by the model never hold duplicate keys). -/
def lookupA {α : Type} : List (String × α) → String → Option α
  | [], _ => none
  | (k2, v) :: rest, k => if k2 = k then some v else lookupA rest k

/-- Mirrors `d[k] = v` on a Python dict: replace in place when the key is
present, append otherwise. -/
def insertA {α : Type} : List (String × α) → String → α → List (String × α)
  | [], k, v => [(k, v)]
  | (k2, v2) :: rest, k, v =>
      if k2 = k then (k2, v) :: rest else (k2, v2) :: insertA rest k v

/-- Mirrors `del d[k]` on a Python dict. -/
def removeA {α : Type} : List (String × α) → String → List (String × α)
  | [], _ => []
  | (k2, v2) :: rest, k => if k2 = k then rest else (k2, v2) :: removeA rest k

/-! Python string primitives, written with structural recursion so that every
concrete evaluation reduces in the kernel.  They model CPython `str` methods
for the ASCII text the application handles. -/

def isPrefixCL : List Char → List Char → Bool
  | [], _ => true
  | _ :: _, [] => false
  | a :: as, b :: bs => a = b && isPrefixCL as bs

/-- Left-to-right, non-overlapping split (fuel bounds the scan; callers pass
`length + 1`, which always suffices). -/
def splitOnFuel (sep : List Char) : Nat → List Char → List Char → List (List Char)
  | 0, s, acc => [acc.reverse ++ s]
  | _ + 1, [], acc => [acc.reverse]
  | fuel + 1, c :: rest, acc =>
    if isPrefixCL sep (c :: rest) then
      acc.reverse :: splitOnFuel sep fuel (List.drop (sep.length - 1) rest) []
    else splitOnFuel sep fuel rest (c :: acc)

/-- Python `s.split(sep)` for a non-empty separator. -/
def pySplitOn (s sep : String) : List String :=
  if sep.data = [] then [s]
  else (splitOnFuel sep.data (s.data.length + 1) s.data []).map String.mk

def replaceFuel (old new : List Char) : Nat → List Char → List Char
  | 0, s => s
  | _ + 1, [] => []
  | fuel + 1, c :: rest =>
    if isPrefixCL old (c :: rest) then
      new ++ replaceFuel old new fuel (List.drop (old.length - 1) rest)
    else c :: replaceFuel old new fuel rest

/-- Python `s.replace(old, new)` for a non-empty `old`. -/
def pyReplace (s old new : String) : String :=
  if old.data = [] then s
  else String.mk (replaceFuel old.data new.data (s.data.length + 1) s.data)

/-- Python `s.lower()` (ASCII). -/
def pyLower (s : String) : String := String.mk (s.data.map Char.toLower)

def isSpaceChar (c : Char) : Bool := c = ' ' || c = '\t' || c = '\n' || c = '\r'

/-- Python `s.strip()` (ASCII whitespace). -/
def pyStrip (s : String) : String :=
  String.mk (((s.data.dropWhile isSpaceChar).reverse.dropWhile isSpaceChar).reverse)

/-- Decimal value of an all-digit string. -/
def digitsToNat (s : String) : Nat :=
  s.data.foldl (fun a c => a * 10 + (c.toNat - 48)) 0

/-- Python `sub in s` on strings (substring containment, `sub` non-empty). -/
def pyIn (sub s : String) : Bool := (pySplitOn s sub).length ≥ 2

/-- `s.count(c)` for a single character. -/
def countChar (s : String) (c : Char) : Nat := s.data.count c

/-- `f-string` style read of a string field, with a default for the cases the
sources guard against elsewhere (a missing key would raise `KeyError`). -/
def getStrD (m : PyDict) (k : String) (d : String) : String :=
  match lookupA m k with
  | some (.str s) => s
  | _ => d

/-- `d.get(k, default)` keeping the raw Python value. -/
def getValD (m : PyDict) (k : String) (d : PyVal) : PyVal :=
  match lookupA m k with
  | some v => v
  | none => d

/-! ## Civil date arithmetic

`datetime` is modelled on the proleptic Gregorian calendar for dates at or
after 1970-01-01 (every date the application handles).  A day number is the
count of days since 1970-01-01; a time instant is a count of minutes since
1970-01-01 00:00. -/

def isLeap (y : Nat) : Bool := (y % 4 == 0 && y % 100 != 0) || y % 400 == 0

def daysInMonth (y m : Nat) : Nat :=
  if m = 2 then (if isLeap y then 29 else 28)
  else if m = 4 || m = 6 || m = 9 || m = 11 then 30
  else 31

/-- Days since 1970-01-01 of the civil date `(y, m, d)` (valid for dates at
or after 1970-01-01; constant-time era-based computation). -/
def daysFromCivil (y m d : Nat) : Nat :=
  let yAdj := if m ≤ 2 then y - 1 else y
  let era := yAdj / 400
  let yoe := yAdj - era * 400
  let mp := (m + 9) % 12
  let doy := (153 * mp + 2) / 5 + d - 1
  let doe := yoe * 365 + yoe / 4 - yoe / 100 + doy
  era * 146097 + doe - 719468

/-- Civil date `(y, m, d)` of a day number (inverse of `daysFromCivil`). -/
def civilFromDays (z : Nat) : Nat × Nat × Nat :=
  let z2 := z + 719468
  let era := z2 / 146097
  let doe := z2 % 146097
  let yoe := (doe - doe / 1460 + doe / 36524 - doe / 146096) / 365
  let y := yoe + era * 400
  let doy := doe - (365 * yoe + yoe / 4 - yoe / 100)
  let mp := (5 * doy + 2) / 153
  let d := doy - (153 * mp + 2) / 5 + 1
  let m := if mp < 10 then mp + 3 else mp - 9
  (if m ≤ 2 then y + 1 else y, m, d)

/-- Python `date.weekday()`: Monday = 0 … Sunday = 6 (1970-01-01 was a
Thursday, weekday 3). -/
def weekdayOfDays (z : Nat) : Nat := (z + 3) % 7

def pad2 (n : Nat) : String := if n < 10 then "0" ++ toString n else toString n

/-- `date.strftime("%Y-%m-%d")` for years with four digits. -/
def formatCivil : Nat × Nat × Nat → String
  | (y, m, d) => toString y ++ "-" ++ pad2 m ++ "-" ++ pad2 d

def allDigits (s : String) : Bool := s.length > 0 && s.data.all Char.isDigit

/-- `datetime.strptime(s, "%Y-%m-%d")`: four-digit year, one- or two-digit
month and day, range-checked (a failure models the `ValueError`). -/
def parseDate (s : String) : Option (Nat × Nat × Nat) :=
  match pySplitOn s "-" with
  | [ys, ms, ds] =>
    if ys.length = 4 && allDigits ys && allDigits ms && ms.length ≤ 2
        && allDigits ds && ds.length ≤ 2 then
      let y := digitsToNat ys
      let m := digitsToNat ms
      let d := digitsToNat ds
      if 1 ≤ m && m ≤ 12 && 1 ≤ d && d ≤ daysInMonth y m then
        some (y, m, d)
      else none
    else none
  | _ => none

/-! ## Validation functions

`BBCSportScraper._validate_scraped_matches` (bbc_scraper.py:268-311) and
`DataManager._validate_fixture_data` (data_manager.py:576-601),
`DataManager.validate_selections` (data_manager.py:603-642). -/

/-- Per-value HTML-leakage heuristic of `_validate_scraped_matches`: a string
value with more than 10 combined literal angle brackets, or longer than 1000
characters, is rejected; non-string values are skipped. -/
def scrapedValueOk (v : PyVal) : Bool :=
  match v with
  | .str value =>
      !(countChar value '<' + countChar value '>' > 10) && !(value.length > 1000)
  | .int _ => true

def scrapedRequiredOk (m : PyDict) : Bool :=
  ["league", "home_team", "away_team", "kickoff"].all fun field =>
    match lookupA m field with
    | some (.str value) => (pyStrip value).length > 0
    | _ => false

/-- `BBCSportScraper._validate_scraped_matches`: every value of every record
passes the leakage heuristic and the four required fields are present as
non-whitespace strings.  The empty list is valid. -/
def validateScrapedMatches (batch : List PyDict) : Bool :=
  batch.all fun m =>
    (m.all fun kv => scrapedValueOk kv.2) && scrapedRequiredOk m

/-- `DataManager._validate_fixture_data`: read-time structural validation of
a cached fixture list (required fields present, non-empty strings, kickoff in
the singleton whitelist `["15:00"]`). -/
def validateFixtureData (fixtures : List PyDict) : Bool :=
  fixtures.all fun fixture =>
    (["league", "home_team", "away_team", "kickoff"].all fun field =>
      (lookupA fixture field).isSome) &&
    (match lookupA fixture "league" with
     | some (.str s) => s.length > 0 | _ => false) &&
    (match lookupA fixture "home_team" with
     | some (.str s) => s.length > 0 | _ => false) &&
    (match lookupA fixture "away_team" with
     | some (.str s) => s.length > 0 | _ => false) &&
    (match lookupA fixture "kickoff" with
     | some (.str s) => ["15:00"].contains s | _ => false)

/-- One entry of `DataManager.validate_selections`. -/
def validSelection (selection : PyDict) : Bool :=
  (["home_team", "away_team", "prediction", "confidence"].all fun field =>
    (lookupA selection field).isSome) &&
  (match lookupA selection "prediction" with
   | some (.str p) => ["HOME", "AWAY", "DRAW", "BTTS_YES", "BTTS_NO", "TBD"].contains p
   | _ => false) &&
  (match lookupA selection "confidence" with
   | some (.int c) => decide (1 ≤ c) && decide (c ≤ 10)
   | _ => false)

/-- `DataManager.validate_selections`. -/
def validateSelections (selections : List (String × PyDict)) : Bool :=
  selections.all fun kv => validSelection kv.2

/-! ## DataManager state and cache operations

`data_manager.py`.  The on-disk `fixtures/` and `selections/` directories are
association lists from file name to logical file content.  Whether a file is
written plain or as a gzip sibling only changes the physical encoding
(`_save_json_file` / `_load_json_file` are inverses either way), so the model
stores the logical content under the `.json` name.  The in-memory hot cache
and its timestamp map are modelled directly; operation statistics are not
(no behaviour depends on them). -/

/-- Metadata block written by `cache_bbc_fixtures` (data_manager.py:457-463).
Timestamps are minutes. -/
structure CacheMeta where
  cached_at : Nat
  expires_at : Nat
  ttl_hours : Nat
  date : String
deriving Repr, DecidableEq

structure CacheFile where
  metadata : CacheMeta
  fixtures : List PyDict
deriving Repr, DecidableEq

/-- Metadata block written by `save_weekly_selections`. -/
structure SelMeta where
  created_at : Nat
  version : String
  date : String
deriving Repr, DecidableEq

structure SelFile where
  metadata : SelMeta
  selections : List (String × PyDict)
deriving Repr, DecidableEq

/-- A value held in `DataManager._memory_cache` (typed by which operation
stored it; the key namespaces are disjoint by construction). -/
inductive MemVal where
  | fix (xs : List PyDict)
  | sel (m : List (String × PyDict))
deriving Repr, DecidableEq

structure DMState where
  fixtureFiles : List (String × CacheFile)
  selectionFiles : List (String × SelFile)
  memCache : List (String × MemVal)
  cacheTimestamps : List (String × Nat)
deriving Repr, DecidableEq

def DMState.empty : DMState := ⟨[], [], [], []⟩

/-- `DataManager.bbc_cache_ttl = timedelta(hours=72)`, in minutes. -/
def bbcCacheTtl : Nat := 72 * 60

/-- `DataManager._memory_cache_ttl = timedelta(minutes=5)`. -/
def memoryCacheTtl : Nat := 5

/-- `DataManager._get_memory_cache_key(op, arg)` (joins with `|`). -/
def memoryCacheKey (op arg : String) : String := op ++ "|" ++ arg

/-- `DataManager._get_memory_cache`: return the entry if it is younger than
the 5-minute memory TTL, delete it otherwise.  The `datetime.min` default for
a missing timestamp is modelled as 0 (both make an entry without a timestamp
expire except in the first minutes of the epoch). -/
def getMemoryCache (now : Nat) (s : DMState) (key : String) :
    Option MemVal × DMState :=
  match lookupA s.memCache key with
  | some v =>
      let ts := (lookupA s.cacheTimestamps key).getD 0
      if now - ts < memoryCacheTtl then (some v, s)
      else (none, { s with memCache := removeA s.memCache key,
                           cacheTimestamps := removeA s.cacheTimestamps key })
  | none => (none, s)

/-- `DataManager._set_memory_cache`. -/
def setMemoryCache (now : Nat) (s : DMState) (key : String) (v : MemVal) :
    DMState :=
  { s with memCache := insertA s.memCache key v,
           cacheTimestamps := insertA s.cacheTimestamps key now }

/-- File name used by the fixture-cache writer (`cache_bbc_fixtures`,
data_manager.py:446). -/
def bbcCacheFileName (date : String) : String := "bbc_cache_" ++ date ++ ".json"

/-- File name used by the fixture-cache reader (`get_bbc_fixtures`,
data_manager.py:497-502): league-scoped when `league` is truthy (non-`None`
and non-empty), the generic name otherwise. -/
def bbcReadFileName (date : String) (league : Option String) : String :=
  match league with
  | some l =>
      if l = "" then bbcCacheFileName date
      else "bbc_cache_" ++ date ++ "_" ++ pyLower (pyReplace l " " "_") ++ ".json"
  | none => bbcCacheFileName date

/-- `DataManager.cache_bbc_fixtures` (data_manager.py:431-483): the put
operation of the cache store.  Writes metadata and payload unconditionally
(no validation on this path); skips the write when the in-memory tier already
holds an identical payload for the date.  When `date` is `None` the current
date is used. -/
def cacheBbcFixtures (now : Nat) (s : DMState) (fixtures_data : List PyDict)
    (date? : Option String) : Bool × DMState :=
  let date := date?.getD (formatCivil (civilFromDays (now / 1440)))
  let filename := bbcCacheFileName date
  let cacheKey := memoryCacheKey "bbc_fixtures" date
  let res := getMemoryCache now s cacheKey
  if res.1 = some (.fix fixtures_data) then (true, res.2)
  else
    let cache_data : CacheFile :=
      { metadata := { cached_at := now, expires_at := now + bbcCacheTtl,
                      ttl_hours := 24, date := date },
        fixtures := fixtures_data }
    let s2 := { res.2 with
                fixtureFiles := insertA res.2.fixtureFiles filename cache_data }
    (true, setMemoryCache now s2 cacheKey (.fix fixtures_data))

/-- `DataManager._cleanup_expired_cache`: delete the cache file. -/
def cleanupExpiredCache (s : DMState) (filename : String) : DMState :=
  { s with fixtureFiles := removeA s.fixtureFiles filename }

/-- `DataManager.get_bbc_fixtures` (data_manager.py:485-563): TTL expiry is
checked first, then the date-sanity window (reject when the target date is
more than 14 days in the future or more than 7 days in the past — the latter
comparison `target < now - 7d` is written additively to stay in ℕ), then the
structural re-validation; any failure deletes the entry and reports a miss.
The memory tier is only written, never consulted, by this reader. -/
def getBbcFixtures (now : Nat) (s : DMState) (date : String)
    (league : Option String) : Option (List PyDict) × DMState :=
  let filename := bbcReadFileName date league
  match lookupA s.fixtureFiles filename with
  | none => (none, s)
  | some cache_data =>
    if now > cache_data.metadata.expires_at then
      (none, cleanupExpiredCache s filename)
    else
      match parseDate date with
      | none => (none, cleanupExpiredCache s filename)
      | some (y, m, d) =>
        let targetMin := daysFromCivil y m d * 1440
        if targetMin > now + 14 * 1440 then (none, cleanupExpiredCache s filename)
        else if targetMin + 7 * 1440 < now then (none, cleanupExpiredCache s filename)
        else
          let fixtures := cache_data.fixtures
          if validateFixtureData fixtures then
            (some fixtures,
             setMemoryCache now s (memoryCacheKey "bbc_fixtures" date) (.fix fixtures))
          else (none, cleanupExpiredCache s filename)

/-- The read-time date-sanity window of `get_bbc_fixtures` in isolation
(used to state hypotheses about reads). -/
def dateSanityOk (t : Nat) (date : String) : Bool :=
  match parseDate date with
  | none => false
  | some (y, m, d) =>
    let targetMin := daysFromCivil y m d * 1440
    !(targetMin > t + 14 * 1440) && !(targetMin + 7 * 1440 < t)

/-- `BBCSportScraper._save_cache_data` (bbc_scraper.py:253-266): runs the
Validation Gate (`_validate_scraped_matches`) and only on success hands the
batch to `cache_bbc_fixtures`; the league name is used only for logging. -/
def saveCacheData (now : Nat) (s : DMState) (batch : List PyDict)
    (date : String) (leagueName : String) : DMState :=
  if validateScrapedMatches batch then
    (cacheBbcFixtures now s batch (some date)).2
  else
    let _ := leagueName
    s

/-- `DataManager.save_weekly_selections` (data_manager.py:327-383): validate,
skip the write when the memory tier holds an identical map, otherwise write
metadata plus map and refresh the memory tier. -/
def saveWeeklySelections (now : Nat) (s : DMState)
    (selections_data : List (String × PyDict)) (date? : Option String) :
    Bool × DMState :=
  let date := date?.getD (formatCivil (civilFromDays (now / 1440)))
  if !validateSelections selections_data then (false, s)
  else
    let filename := "week_" ++ date ++ ".json"
    let cacheKey := memoryCacheKey "selections" date
    let res := getMemoryCache now s cacheKey
    if res.1 = some (.sel selections_data) then (true, res.2)
    else
      let file : SelFile :=
        { metadata := { created_at := now, version := "1.0", date := date },
          selections := selections_data }
      let s2 := { res.2 with
                  selectionFiles := insertA res.2.selectionFiles filename file }
      (true, setMemoryCache now s2 cacheKey (.sel selections_data))

/-- `DataManager.load_weekly_selections` (data_manager.py:385-429): a truthy
(non-empty) memory-tier hit is returned directly; otherwise the file is
loaded, re-validated (invalid ⇒ `None`) and the memory tier refreshed. -/
def loadWeeklySelections (now : Nat) (s : DMState) (date : String) :
    Option (List (String × PyDict)) × DMState :=
  let cacheKey := memoryCacheKey "selections" date
  let res := getMemoryCache now s cacheKey
  let fromFile := fun (s1 : DMState) =>
    match lookupA s1.selectionFiles ("week_" ++ date ++ ".json") with
    | none => ((none : Option (List (String × PyDict))), s1)
    | some file =>
      let selections := file.selections
      if !validateSelections selections then (none, s1)
      else (some selections, setMemoryCache now s1 cacheKey (.sel selections))
  match res.1 with
  | some (.sel m) => if m ≠ [] then (some m, res.2) else fromFile res.2
  | _ => fromFile res.2

/-! ## Source parser (bbc_scraper.py)

The BeautifulSoup DOM is abstracted to exactly the data the parsing code
inspects: the element's text nodes in document order, the stripped text of
the class-matched `time` / status / minute / venue descendants, the league
the backward DOM walk of `_identify_league_from_context` would find (that
walk is an explicitly heuristic traversal; it is modelled as an oracle
field), and the decoded `application/json` script payloads.  The `re`
patterns are modelled with single-space separators, which is exact for the
single-spaced BBC markup text the patterns target. -/

inductive Mode where
  | fixtures
  | live
deriving Repr, DecidableEq

/-- `BBCSportScraper.LEAGUES` (bbc_scraper.py:105-123). -/
def LEAGUES : List (String × String) :=
  [("Premier League", "/sport/football/premier-league/scores-fixtures"),
   ("English Championship", "/sport/football/championship/scores-fixtures"),
   ("English League One", "/sport/football/league-one/scores-fixtures"),
   ("English League Two", "/sport/football/league-two/scores-fixtures"),
   ("English National League", "/sport/football/national-league/scores-fixtures"),
   ("Scottish Premiership", "/sport/football/scottish-premiership/scores-fixtures"),
   ("Scottish Championship", "/sport/football/scottish-championship/scores-fixtures"),
   ("Scottish League One", "/sport/football/scottish-league-one/scores-fixtures"),
   ("Scottish League Two", "/sport/football/scottish-league-two/scores-fixtures")]

/-- One event of an embedded-JSON block: `hasTeams` is
`'home' in event and 'away' in event`; the names are
`event['home'/'away'].get('fullName', '')`; `kickoffLocal` is the local
`"%H:%M"` rendering of `startDateTime` when present and parseable (`none`
models the missing / unparseable cases, which fall back to `"15:00"`). -/
structure ChampEvent where
  hasTeams : Bool
  homeName : String
  awayName : String
  kickoffLocal : Option String
deriving Repr, DecidableEq

/-- One entry of `eventGroups`: direct `events`, else `secondaryGroups`
(each secondary group contributing its `events` list). -/
structure EventGroup where
  events : Option (List ChampEvent)
  secondaryGroups : Option (List (List ChampEvent))
deriving Repr, DecidableEq

/-- The `events` / `secondaryGroups` collection step shared by
`_parse_championship_match_data` and `_extract_matches_from_json`
(bbc_scraper.py:568-577, 982-991). -/
def collectGroupEvents (g : EventGroup) : List ChampEvent :=
  match g.events with
  | some es => es
  | none =>
    match g.secondaryGroups with
    | some sgs => sgs.flatten
    | none => []

/-- The DOM element abstraction described above.  `jsonScripts` holds the
event-group lists of the element's JSON-decodable scripts (scripts failing
`json.loads` are skipped by every consumer and therefore not represented). -/
structure MatchElement where
  texts : List String
  timeText : Option String
  statusText : Option String
  minuteText : Option String
  venueSpanText : Option String
  contextLeague : Option String
  jsonScripts : List (List EventGroup)
deriving Repr, DecidableEq

def firstSome {α β : Type} (f : α → Option β) : List α → Option β
  | [] => none
  | a :: rest =>
    match f a with
    | some b => some b
    | none => firstSome f rest

/-- Split at the first occurrence of `sep`, yielding the (lazy-group)
prefix and the remainder. -/
def splitFirst (text sep : String) : Option (String × String) :=
  match pySplitOn text sep with
  | a :: b :: rest => some (a, String.intercalate sep (b :: rest))
  | _ => none

/-- The fixtures-mode team extraction of `_parse_match_data`
(bbc_scraper.py:378-383): `(.+?) versus (.+?) kick off 15:00`, groups
stripped. -/
def extractVersus1500 (text : String) : Option (String × String) :=
  match splitFirst text " versus " with
  | none => none
  | some (h, tail) =>
    match splitFirst tail " kick off 15:00" with
    | none => none
    | some (a, _) => some (pyStrip h, pyStrip a)

/-- One candidate of the Championship JSON walk (bbc_scraper.py:579-611):
skip events without both teams or with out-of-range names, default the
kickoff to `"15:00"`, and produce a record only for a 15:00 kickoff. -/
def champEventMatch (league_name : String) (event : ChampEvent) :
    Option PyDict :=
  if !event.hasTeams then none
  else
    let home_team := event.homeName
    let away_team := event.awayName
    if home_team.length < 2 || away_team.length < 2
        || home_team.length > 50 || away_team.length > 50 then none
    else
      let kickoff := event.kickoffLocal.getD "15:00"
      if kickoff = "15:00" then
        some [("league", .str league_name), ("home_team", .str home_team),
              ("away_team", .str away_team), ("kickoff", .str kickoff),
              ("venue", .str "TBC")]
      else none

/-- `BBCSportScraper._parse_championship_match_data`
(bbc_scraper.py:529-620): first qualifying event across the element's JSON
scripts, or nothing. -/
def parseChampionshipMatchData (el : MatchElement) (league_name : String) :
    Option PyDict :=
  firstSome
    (fun groups =>
      firstSome
        (fun g => firstSome (champEventMatch league_name) (collectGroupEvents g))
        groups)
    el.jsonScripts

/-- Score-pattern extraction `(.+?) (\d+)-(\d+) (.+)` of
`_parse_live_match_data`, over whitespace-separated words. -/
def scoreToken (w : String) : Option (Nat × Nat) :=
  match pySplitOn w "-" with
  | [a, b] =>
    if allDigits a && allDigits b then some (digitsToNat a, digitsToNat b)
    else none
  | _ => none

def findScoreSplit : List String → Option (List String × Nat × Nat × List String)
  | [] => none
  | w :: rest =>
    match scoreToken w with
    | some (x, y) => some ([], x, y, rest)
    | none =>
      match findScoreSplit rest with
      | some (pre, x, y, post) => some (w :: pre, x, y, post)
      | none => none

/-- Earliest split at `" vs "` / `" v "` (the `vs?` alternative of pattern
2 in `_parse_live_match_data`). -/
def vsSplitFirst (text : String) : Option (String × String) :=
  match splitFirst text " vs ", splitFirst text " v " with
  | some (a1, b1), some (a2, b2) =>
      if a2.length < a1.length then some (a2, b2) else some (a1, b1)
  | some r, none => some r
  | none, some r => some r
  | none, none => none

/-- Teams-and-scores extraction of `_parse_live_match_data`
(bbc_scraper.py:449-466): the score pattern first, then the plain
`vs` pattern with a 0-0 score. -/
def extractTeamsScores (text : String) :
    Option (String × String × Int × Int) :=
  let ws := (pySplitOn text " ").filter (fun w => w ≠ "")
  let p1 :=
    match findScoreSplit ws with
    | some (pre, x, y, post) =>
      if pre = [] || post = [] then none
      else some (String.intercalate " " pre, String.intercalate " " post,
                 (x : Int), (y : Int))
    | none => none
  match p1 with
  | some r => some r
  | none =>
    match vsSplitFirst text with
    | some (a, b) => some (pyStrip a, pyStrip b, 0, 0)
    | none => none

/-- Status/minute classification of `_parse_live_match_data`
(bbc_scraper.py:476-500). -/
def liveStatus (el : MatchElement) : String × String :=
  match el.statusText with
  | none => ("not_started", "0\x27")
  | some st =>
    let status_text := pyLower (pyStrip st)
    if pyIn "live" status_text || pyIn "playing" status_text then
      ("live", el.minuteText.getD "LIVE")
    else if pyIn "finished" status_text || pyIn "ft" status_text then
      ("finished", "FT")
    else if pyIn "halftime" status_text || pyIn "ht" status_text then
      ("halftime", "HT")
    else if pyIn "half time" status_text then ("halftime", "HT")
    else ("not_started", "0\x27")

/-- `BBCSportScraper._parse_live_match_data` (bbc_scraper.py:426-527).
The `last_updated` wall-clock field of the source record is a timestamp no
modelled consumer reads and is omitted. -/
def parseLiveMatchData (el : MatchElement) (league_name : String) :
    Option PyDict :=
  let mtext := el.texts.find? fun t =>
    pyIn " vs " (pyLower t) || pyIn " v " (pyLower t)
  match mtext with
  | none => none
  | some text0 =>
    match extractTeamsScores (pyStrip text0) with
    | none => none
    | some (t1, t2, s1, s2) =>
      if t1.length < 2 || t2.length < 2 || t1.length > 50 || t2.length > 50 then
        none
      else
        let sm := liveStatus el
        some [("league", .str league_name), ("home_team", .str t1),
              ("away_team", .str t2),
              ("kickoff", .str (el.timeText.getD "TBC")),
              ("venue", .str (el.venueSpanText.getD "TBC")),
              ("home_score", .int s1), ("away_score", .int s2),
              ("status", .str sm.1), ("match_time", .str sm.2)]

/-- `BBCSportScraper._parse_match_data` (bbc_scraper.py:339-424): the
Championship tiers route to the JSON strategy (fixtures) or the live parser;
every other league uses the `versus … kick off 15:00` text pattern in
fixtures mode, with the time element required to read exactly `"15:00"`. -/
def parseMatchData (el : MatchElement) (league_name : String) (mode : Mode) :
    Option PyDict :=
  if league_name = "English Championship" || league_name = "Scottish Championship" then
    match mode with
    | .fixtures => parseChampionshipMatchData el league_name
    | .live => parseLiveMatchData el league_name
  else
    match mode with
    | .live => parseLiveMatchData el league_name
    | .fixtures =>
      let mtext := el.texts.find? fun t =>
        pyIn "versus" (pyLower t) && pyIn "kick off 15:00" t
      match mtext with
      | none => none
      | some text0 =>
        match extractVersus1500 (pyStrip text0) with
        | none => none
        | some (home_team, away_team) =>
          if home_team.length < 2 || away_team.length < 2
              || home_team.length > 50 || away_team.length > 50 then none
          else
            match el.timeText with
            | none => none
            | some kickoff =>
              let venue := el.venueSpanText.getD "TBC"
              if kickoff ≠ "15:00" then none
              else
                some [("league", .str league_name),
                      ("home_team", .str home_team),
                      ("away_team", .str away_team),
                      ("kickoff", .str kickoff), ("venue", .str venue),
                      ("home_score", .int 0), ("away_score", .int 0),
                      ("status", .str "not_started"),
                      ("match_time", .str "0\x27")]

/-- Leading `\d{1,2}:\d{2}` match (group 3 of the unified pattern), the
two-digit hour preferred as by a greedy `\d{1,2}`. -/
def leadingTime (s : String) : Option String :=
  match s.data with
  | c1 :: c2 :: c3 :: c4 :: c5 :: _ =>
    if c1.isDigit && c2.isDigit && c3 = ':' && c4.isDigit && c5.isDigit then
      some (String.mk [c1, c2, c3, c4, c5])
    else if c1.isDigit && c2 = ':' && c3.isDigit && c4.isDigit then
      some (String.mk [c1, c2, c3, c4])
    else none
  | [c1, c2, c3, c4] =>
    if c1.isDigit && c2 = ':' && c3.isDigit && c4.isDigit then
      some (String.mk [c1, c2, c3, c4])
    else none
  | _ => none

/-- Venue text search of `_parse_unified_match_data`
(bbc_scraper.py:824-830). -/
def unifiedVenue (el : MatchElement) : String :=
  match el.texts.find? (fun t => pyIn "stadium" (pyLower t)) with
  | some t => pyStrip t
  | none =>
    match el.texts.find? (fun t => pyIn "venue" (pyLower t)) with
    | some t => pyStrip t
    | none =>
      match el.texts.find? (fun t => pyIn "ground" (pyLower t)) with
      | some t => pyStrip t
      | none => "TBC"

/-- `BBCSportScraper._parse_unified_match_data` (bbc_scraper.py:774-846):
pattern `(.+?) versus (.+?) kick off (\d{1,2}:\d{2})`, name-length checks,
heuristic league attribution, supported-league filter.  The captured kickoff
is returned as-is — there is no 15:00 restriction on this path, and the
`mode` parameter is never consulted by the source either. -/
def parseUnifiedMatchData (el : MatchElement) (mode : Mode) : Option PyDict :=
  let _ := mode
  let mtext := el.texts.find? fun t =>
    pyIn "versus" (pyLower t) && pyIn "kick off" t
  match mtext with
  | none => none
  | some text0 =>
    match splitFirst (pyStrip text0) " versus " with
    | none => none
    | some (h, tail) =>
      match splitFirst tail " kick off " with
      | none => none
      | some (a, rest) =>
        match leadingTime rest with
        | none => none
        | some kickoff =>
          let home_team := pyStrip h
          let away_team := pyStrip a
          if home_team.length < 2 || away_team.length < 2
              || home_team.length > 50 || away_team.length > 50 then none
          else
            match el.contextLeague with
            | none => none
            | some league_name =>
              if league_name = ""
                  || !((LEAGUES.map Prod.fst).contains league_name) then none
              else
                some [("league", .str league_name),
                      ("home_team", .str home_team),
                      ("away_team", .str away_team),
                      ("kickoff", .str kickoff),
                      ("venue", .str (unifiedVenue el)),
                      ("home_score", .int 0), ("away_score", .int 0),
                      ("status", .str "not_started"),
                      ("match_time", .str "0\x27")]

/-- `BBCSportScraper._extract_matches_from_json` (bbc_scraper.py:962-1018):
every event with both teams and names longer than 2 characters, league
hard-coded to `"Unknown League"`, kickoff hard-coded to `"15:00"`. -/
def extractMatchesFromJson (groups : List EventGroup) : List PyDict :=
  ((groups.map collectGroupEvents).flatten).filterMap fun event =>
    if event.hasTeams && event.homeName.length > 2
        && event.awayName.length > 2 then
      some [("league", .str "Unknown League"),
            ("home_team", .str event.homeName),
            ("away_team", .str event.awayName),
            ("home_score", .int 0), ("away_score", .int 0),
            ("status", .str "not_started"), ("match_time", .str "0\x27"),
            ("kickoff", .str "15:00"), ("venue", .str "TBC")]
    else none

/-- The de-duplication key of `_parse_unified_matches` (bbc_scraper.py:762):
`f"{home_team}_{away_team}_{league}"`. -/
def matchKeyOf (m : PyDict) : String :=
  getStrD m "home_team" "" ++ "_" ++ getStrD m "away_team" "" ++ "_"
    ++ getStrD m "league" ""

/-- `BBCSportScraper._parse_unified_matches` (bbc_scraper.py:711-772):
JSON-block matches are appended first (and never keyed); the per-element
matches then pass through the `processed_matches` key set. -/
def parseUnifiedMatches (scripts : List (List EventGroup))
    (els : List MatchElement) (mode : Mode) : List PyDict :=
  let jsonMatches :=
    scripts.foldl (fun acc groups => acc ++ extractMatchesFromJson groups) []
  let step := fun (st : List String × List PyDict) (el : MatchElement) =>
    match parseUnifiedMatchData el mode with
    | none => st
    | some m =>
      let match_key := matchKeyOf m
      if st.1.contains match_key then st
      else (match_key :: st.1, st.2 ++ [m])
  (els.foldl step ([], jsonMatches)).2

/-! ## Weekly selection manager (app.py)

`now` is the wall clock in minutes since the epoch; `now / 1440` is
`datetime.now().date()` as a day number. -/

/-- The fixed panel (app.py:211-214). -/
def SELECTORS : List String :=
  ["Glynny", "Eamonn Bone", "Mickey D", "Rob Carney",
   "Steve H", "Danny", "Eddie Lee", "Fran Radar"]

/-- `get_current_prediction_week` (app.py:216-245): Saturday stays pinned all
day; Sunday targets the Saturday 6 days ahead; Monday–Friday target the
Saturday `5 - weekday()` days ahead. -/
def getCurrentPredictionWeek (now : Nat) : String :=
  let days := now / 1440
  let current_day := weekdayOfDays days
  let target_date :=
    if current_day = 5 then days
    else
      let days_until_saturday := if current_day = 6 then 6 else 5 - current_day
      days + days_until_saturday
  formatCivil (civilFromDays target_date)

/-- The per-entry enhancement in `load_selections` (app.py:317-323): a copy
of the entry, with `assigned_at` appended when missing.  The ISO timestamp
string is abstracted as the decimal minute count. -/
def enhanceEntry (now : Nat) (entry : PyDict) : PyDict :=
  if (lookupA entry "assigned_at").isSome then entry
  else entry ++ [("assigned_at", .str (toString now))]

def enhanceSelections (now : Nat) (selections : List (String × PyDict)) :
    List (String × PyDict) :=
  selections.map fun kv => (kv.1, enhanceEntry now kv.2)

/-- `load_selections` (app.py:294-331), reduced to the `selectors` component
of its result (the `matches`/`last_updated` wrapper fields are constants the
modelled callers never read).  A missing or invalid file yields the empty
map. -/
def loadSelections (now : Nat) (s : DMState) :
    List (String × PyDict) × DMState :=
  let week := getCurrentPredictionWeek now
  let res := loadWeeklySelections now s week
  match res.1 with
  | none => ([], res.2)
  | some sel => (enhanceSelections now sel, res.2)

/-- `save_selections` (app.py:333-360). -/
def saveSelections (now : Nat) (s : DMState)
    (selectionsOnly : List (String × PyDict)) : Bool × DMState :=
  saveWeeklySelections now s selectionsOnly (some (getCurrentPredictionWeek now))

/-- The derived match identity used by `assign_match`
(app.py:681, 704): `f"{league}_{home_team}_{away_team}"`. -/
def matchIdOf (m : PyDict) : String :=
  getStrD m "league" "" ++ "_" ++ getStrD m "home_team" "" ++ "_"
    ++ getStrD m "away_team" ""

inductive AssignResult where
  | success
  | error (msg : String)
deriving Repr, DecidableEq

/-- `assign_match` (app.py:593-770), the `/api/assign` handler.  HTTP
plumbing is dropped; `scraped` stands for the `matches_3pm` list a fresh
`scrape_saturday_3pm_fixtures()` call would return (an oracle for the
network fetch).  Falsy (`""`) inputs model missing JSON parameters. -/
def assignMatch (now : Nat) (s : DMState) (matchId selector : String)
    (scraped : List PyDict) : AssignResult × DMState :=
  if matchId = "" || selector = "" then
    (.error "Missing required parameters", s)
  else if !(SELECTORS.contains selector) then
    (.error ("Invalid selector: " ++ selector), s)
  else
    let loaded := loadSelections now s
    let selectorsMap0 := loaded.1
    let s1 := loaded.2
    let selectorsMap :=
      if (lookupA selectorsMap0 selector).isSome then
        removeA selectorsMap0 selector
      else selectorsMap0
    if selectorsMap.any (fun kv => lookupA kv.2 "id" = some (.str matchId)) then
      (.error "Match already assigned to another selector", s1)
    else
      let week := getCurrentPredictionWeek now
      let fetched := getBbcFixtures now s1 week none
      let s2 := fetched.2
      let matchDetails :=
        match (fetched.1.getD []).find? (fun m => matchIdOf m = matchId) with
        | some m => some m
        | none => scraped.find? (fun m => matchIdOf m = matchId)
      match matchDetails with
      | none => (.error "Match not found", s2)
      | some md =>
        let newAssignment : PyDict :=
          [("home_team", getValD md "home_team" (.str "")),
           ("away_team", getValD md "away_team" (.str "")),
           ("prediction", .str "TBD"),
           ("confidence", .int 5)]
        let selectorsMap2 := insertA selectorsMap selector newAssignment
        let saved := saveSelections now s2 selectorsMap2
        if saved.1 then (.success, saved.2)
        else (.error "Failed to save selections", saved.2)

/-! ## BTTS aggregation (app.py:1356-1419)

The counting core of `get_btts_summary`, over the loaded selections map and
the live matches the scraper returned (both parameters; the surrounding
endpoint only fetches them and early-returns on an empty map). -/

structure SelectorStatus where
  home_team : Option PyVal
  away_team : Option PyVal
  btts_detected : Bool
  status : PyVal
  home_score : PyVal
  away_score : PyVal
deriving Repr, DecidableEq

/-- Python `score > 0` for the values the endpoint feeds it (a non-integer
score would raise `TypeError` in the source; the model returns `false`,
which no modelled claim exercises). -/
def pyPos (v : PyVal) : Bool :=
  match v with
  | .int n => decide (0 < n)
  | .str _ => false

structure BttsSummary where
  selectors : List (String × SelectorStatus)
  total_matches : Nat
  btts_success : Nat
  btts_pending : Nat
  btts_failed : Nat
  accumulator_status : String
deriving Repr, DecidableEq

/-- One iteration of the per-selector loop (app.py:1363-1406): exact-string
join against the live list, then success/failed/pending counting. -/
def bttsStep (all_live_matches : List PyDict)
    (acc : List (String × SelectorStatus) × Nat × Nat × Nat)
    (kv : String × PyDict) : List (String × SelectorStatus) × Nat × Nat × Nat :=
  let selector := kv.1
  let match_data := kv.2
  let home_team := lookupA match_data "home_team"
  let away_team := lookupA match_data "away_team"
  let match_info := all_live_matches.find? fun bbc_match =>
    lookupA bbc_match "home_team" = home_team
      && lookupA bbc_match "away_team" = away_team
  match match_info with
  | some mi =>
    let home_score := getValD mi "home_score" (.int 0)
    let away_score := getValD mi "away_score" (.int 0)
    let status := getValD mi "status" (.str "not_started")
    let is_btts := pyPos home_score && pyPos away_score
    let entry : SelectorStatus :=
      ⟨home_team, away_team, is_btts, status, home_score, away_score⟩
    let counts :=
      if is_btts then (acc.2.1 + 1, acc.2.2.1, acc.2.2.2)
      else if status = .str "finished" then (acc.2.1, acc.2.2.1, acc.2.2.2 + 1)
      else (acc.2.1, acc.2.2.1 + 1, acc.2.2.2)
    (insertA acc.1 selector entry, counts)
  | none =>
    let entry : SelectorStatus :=
      ⟨home_team, away_team, false, .str "not_started", .int 0, .int 0⟩
    (insertA acc.1 selector entry, acc.2.1, acc.2.2.1 + 1, acc.2.2.2)

/-- `get_btts_summary`, counting block and status derivation
(app.py:1356-1419). -/
def getBttsSummary (selections : List (String × PyDict))
    (all_live_matches : List PyDict) : BttsSummary :=
  let r := selections.foldl (bttsStep all_live_matches) ([], 0, 0, 0)
  let btts_success := r.2.1
  let btts_pending := r.2.2.1
  let btts_failed := r.2.2.2
  let total_selections := selections.length
  let accumulator_status :=
    if btts_failed > 0 then "FAILED"
    else if btts_success = total_selections then "COMPLETE_SUCCESS"
    else if btts_success > 0 then "PARTIAL_SUCCESS"
    else if btts_pending > 0 then "IN_PROGRESS"
    else "NOT_STARTED"
  ⟨r.1, total_selections, btts_success, btts_pending, btts_failed,
   accumulator_status⟩

/-! ## Concrete sample data used by witnesses and counterexamples -/

/-- Saturday 2024-10-19, 12:00 local, in minutes. -/
def satNoon : Nat := daysFromCivil 2024 10 19 * 1440 + 720

/-- Thursday 2024-10-17, 12:00 local, in minutes. -/
def thuNoon : Nat := daysFromCivil 2024 10 17 * 1440 + 720

/-- A structurally valid fixture record as the scraper produces them. -/
def fixArsenal : PyDict :=
  [("league", .str "Premier League"), ("home_team", .str "Arsenal"),
   ("away_team", .str "Chelsea"), ("kickoff", .str "15:00"),
   ("venue", .str "TBC"), ("home_score", .int 0), ("away_score", .int 0),
   ("status", .str "not_started"), ("match_time", .str "0\x27")]

def goodBatch : List PyDict := [fixArsenal]

/-- A batch whose `venue` fails the Validation Gate heuristic (eleven `<`
characters in one string field) while its required fields are intact. -/
def gateFailingBatch : List PyDict :=
  [[("league", .str "Premier League"), ("home_team", .str "Arsenal"),
    ("away_team", .str "Chelsea"), ("kickoff", .str "15:00"),
    ("venue", .str "<<<<<<<<<<<")]]

/-- Parsed-page element: a 15:00 fixture in a Premier League context. -/
def elPL1500 : MatchElement :=
  ⟨["Arsenal versus Chelsea kick off 15:00"], some "15:00", none, none, none,
   some "Premier League", []⟩

/-- Same match text, attributed to the English Championship by the context
walk. -/
def elEC1500 : MatchElement :=
  ⟨["Arsenal versus Chelsea kick off 15:00"], some "15:00", none, none, none,
   some "English Championship", []⟩

/-- A 12:30 kickoff in a Premier League context. -/
def elPL1230 : MatchElement :=
  ⟨["Arsenal versus Chelsea kick off 12:30"], some "12:30", none, none, none,
   some "Premier League", []⟩

/-- The record `parseUnifiedMatchData` produces for `elPL1500`. -/
def recPL1500 : PyDict :=
  [("league", .str "Premier League"), ("home_team", .str "Arsenal"),
   ("away_team", .str "Chelsea"), ("kickoff", .str "15:00"),
   ("venue", .str "TBC"), ("home_score", .int 0), ("away_score", .int 0),
   ("status", .str "not_started"), ("match_time", .str "0\x27")]

/-- The record `parseUnifiedMatchData` produces for `elEC1500`. -/
def recEC1500 : PyDict :=
  [("league", .str "English Championship"), ("home_team", .str "Arsenal"),
   ("away_team", .str "Chelsea"), ("kickoff", .str "15:00"),
   ("venue", .str "TBC"), ("home_score", .int 0), ("away_score", .int 0),
   ("status", .str "not_started"), ("match_time", .str "0\x27")]

/-- The record `parseUnifiedMatchData` produces for `elPL1230`. -/
def recPL1230 : PyDict :=
  [("league", .str "Premier League"), ("home_team", .str "Arsenal"),
   ("away_team", .str "Chelsea"), ("kickoff", .str "12:30"),
   ("venue", .str "TBC"), ("home_score", .int 0), ("away_score", .int 0),
   ("status", .str "not_started"), ("match_time", .str "0\x27")]

/-- A selection entry as stored (BTTS examples). -/
def selArsenal : PyDict :=
  [("home_team", .str "Arsenal"), ("away_team", .str "Chelsea"),
   ("prediction", .str "BTTS_YES"), ("confidence", .int 7)]

/-- Live record: Arsenal 1-0 Chelsea, finished. -/
def liveOneNil : PyDict :=
  [("league", .str "Premier League"), ("home_team", .str "Arsenal"),
   ("away_team", .str "Chelsea"), ("home_score", .int 1),
   ("away_score", .int 0), ("status", .str "finished"),
   ("match_time", .str "FT")]

/-- Live record: Arsenal 1-1 Chelsea, finished. -/
def liveOneOne : PyDict :=
  [("league", .str "Premier League"), ("home_team", .str "Arsenal"),
   ("away_team", .str "Chelsea"), ("home_score", .int 1),
   ("away_score", .int 1), ("status", .str "finished"),
   ("match_time", .str "FT")]

/-- A second valid fixture record. -/
def fixLeeds : PyDict :=
  [("league", .str "Premier League"), ("home_team", .str "Leeds United"),
   ("away_team", .str "Hull City"), ("kickoff", .str "15:00"),
   ("venue", .str "TBC"), ("home_score", .int 0), ("away_score", .int 0),
   ("status", .str "not_started"), ("match_time", .str "0\x27")]

/-- Stored entry for Glynny before a reassignment (shape written by
`assign_match`: no `id`, no `assigned_at`). -/
def selGlynnyOld : PyDict :=
  [("home_team", .str "Arsenal"), ("away_team", .str "Chelsea"),
   ("prediction", .str "TBD"), ("confidence", .int 5)]

/-- Stored entry for Danny (same shape). -/
def selDannyOld : PyDict :=
  [("home_team", .str "Everton"), ("away_team", .str "Fulham"),
   ("prediction", .str "TBD"), ("confidence", .int 5)]

/-- A store whose week file for 2024-10-19 holds assignments for Glynny and
Danny, exactly as `assign_match` would have persisted them. -/
def c8StartState : DMState :=
  ⟨[], [("week_2024-10-19.json",
      { metadata := { created_at := 0, version := "1.0", date := "2024-10-19" },
        selections := [("Glynny", selGlynnyOld), ("Danny", selDannyOld)] })],
   [], []⟩

/-! ## Association-list lemmas -/

theorem lookupA_insertA_self {α : Type} (l : List (String × α)) (k : String)
    (v : α) : lookupA (insertA l k v) k = some v := by
  induction l with
  | nil => simp [insertA, lookupA]
  | cons p rest ih =>
    obtain ⟨k1, v1⟩ := p
    by_cases h : k1 = k
    · subst h
      simp [insertA, lookupA]
    · simp [insertA, lookupA, h, ih]

theorem lookupA_insertA_of_ne {α : Type} (l : List (String × α)) (k k2 : String)
    (v : α) (h : k2 ≠ k) : lookupA (insertA l k v) k2 = lookupA l k2 := by
  induction l with
  | nil => simp [insertA, lookupA, Ne.symm h]
  | cons p rest ih =>
    obtain ⟨k1, v1⟩ := p
    by_cases hp : k1 = k
    · subst hp
      simp [insertA, lookupA, Ne.symm h]
    · simp only [insertA, hp, if_false, lookupA]
      by_cases hq : k1 = k2 <;> simp [hq, ih]

theorem insertA_of_lookupA_none {α : Type} (l : List (String × α)) (k : String)
    (v : α) (h : lookupA l k = none) : insertA l k v = l ++ [(k, v)] := by
  induction l with
  | nil => simp [insertA]
  | cons p rest ih =>
    obtain ⟨k1, v1⟩ := p
    by_cases hp : k1 = k
    · subst hp
      simp [lookupA] at h
    · simp only [lookupA, hp, if_false] at h
      simp [insertA, hp, ih h]

theorem mem_of_lookupA {α : Type} {l : List (String × α)} {k : String} {v : α}
    (h : lookupA l k = some v) : (k, v) ∈ l := by
  induction l with
  | nil => simp [lookupA] at h
  | cons p rest ih =>
    obtain ⟨k1, v1⟩ := p
    by_cases hp : k1 = k
    · subst hp
      simp [lookupA] at h
      simp [h]
    · simp only [lookupA, hp, if_false] at h
      exact List.mem_cons_of_mem _ (ih h)

theorem lookupA_append {α : Type} (l1 l2 : List (String × α)) (k : String) :
    lookupA (l1 ++ l2) k =
      match lookupA l1 k with
      | some v => some v
      | none => lookupA l2 k := by
  induction l1 with
  | nil => simp [lookupA]
  | cons p rest ih =>
    obtain ⟨k1, v1⟩ := p
    by_cases hp : k1 = k <;> simp [lookupA, hp, ih]

theorem lookupA_removeA_of_ne {α : Type} (l : List (String × α)) (k k2 : String)
    (h : k2 ≠ k) : lookupA (removeA l k) k2 = lookupA l k2 := by
  induction l with
  | nil => simp [removeA]
  | cons p rest ih =>
    obtain ⟨k1, v1⟩ := p
    by_cases hp : k1 = k
    · subst hp
      simp [removeA, lookupA, Ne.symm h]
    · simp only [removeA, hp, if_false, lookupA]
      by_cases hq : k1 = k2 <;> simp [hq, ih]

theorem mem_removeA_subset {α : Type} {l : List (String × α)} {k : String}
    {p : String × α} (h : p ∈ removeA l k) : p ∈ l := by
  induction l with
  | nil => simp [removeA] at h
  | cons q rest ih =>
    obtain ⟨k1, v1⟩ := q
    by_cases hq : k1 = k
    · simp only [removeA, hq, if_true] at h
      exact List.mem_cons_of_mem _ h
    · simp only [removeA, hq, if_false] at h
      rcases List.mem_cons.mp h with h1 | h2
      · simp [h1]
      · exact List.mem_cons_of_mem _ (ih h2)

theorem lookupA_eq_none_of_not_mem_keys {α : Type} (l : List (String × α))
    (k : String) (h : k ∉ l.map Prod.fst) : lookupA l k = none := by
  induction l with
  | nil => simp [lookupA]
  | cons p rest ih =>
    simp only [List.map_cons, List.mem_cons] at h
    push_neg at h
    have h1 : p.1 ≠ k := Ne.symm h.1
    simp [lookupA, h1, ih h.2]

theorem lookupA_removeA_self_of_nodup {α : Type} (l : List (String × α))
    (k : String) (h : (l.map Prod.fst).Nodup) :
    lookupA (removeA l k) k = none := by
  induction l with
  | nil => simp [removeA, lookupA]
  | cons p rest ih =>
    simp only [List.map_cons, List.nodup_cons] at h
    by_cases hp : p.1 = k
    · simp only [removeA, hp, if_true]
      exact lookupA_eq_none_of_not_mem_keys _ _ (hp ▸ h.1)
    · simp [removeA, hp, lookupA, ih h.2]

theorem mem_insertA {α : Type} {l : List (String × α)} {k : String} {v : α}
    {p : String × α} (h : p ∈ insertA l k v) : p = (k, v) ∨ p ∈ l := by
  induction l with
  | nil =>
    simp [insertA] at h
    simp [h]
  | cons q rest ih =>
    obtain ⟨k1, v1⟩ := q
    by_cases hq : k1 = k
    · subst hq
      simp only [insertA, if_pos rfl] at h
      rcases List.mem_cons.mp h with h1 | h2
      · left; exact h1
      · right; exact List.mem_cons_of_mem _ h2
    · simp only [insertA, hq, if_false] at h
      rcases List.mem_cons.mp h with h1 | h2
      · right; simp [h1]
      · rcases ih h2 with h3 | h3
        · left; exact h3
        · right; exact List.mem_cons_of_mem _ h3

/-! ## Cache-store lemmas -/

/-- When the memory tier has no entry for the date, `cache_bbc_fixtures`
writes the metadata-plus-payload file. -/
theorem cacheWrite_eq (now : Nat) (s : DMState) (fixtures : List PyDict)
    (date : String)
    (hmem : lookupA s.memCache (memoryCacheKey "bbc_fixtures" date) = none) :
    (cacheBbcFixtures now s fixtures (some date)).2.fixtureFiles
      = insertA s.fixtureFiles (bbcCacheFileName date)
          { metadata := { cached_at := now, expires_at := now + 72 * 60,
                          ttl_hours := 24, date := date },
            fixtures := fixtures } := by
  simp [cacheBbcFixtures, getMemoryCache, hmem, setMemoryCache, bbcCacheTtl]

/-! ## Claim C1 -/

/-- Counterexample to C1 as stated: a batch that fails the Validation Gate
(one field holds eleven `<` characters) is nevertheless persisted by the put
operation `DataManager.cache_bbc_fixtures`, and a subsequent get for the same
key returns it rather than reporting a miss: the put runs no validation, and
the read-time structural check does not cover the angle-bracket or length
heuristics. -/
theorem c1_put_persists_gate_failing_batch :
    validateScrapedMatches gateFailingBatch = false
    ∧ (cacheBbcFixtures satNoon DMState.empty gateFailingBatch
        (some "2024-10-19")).1 = true
    ∧ (lookupA (cacheBbcFixtures satNoon DMState.empty gateFailingBatch
        (some "2024-10-19")).2.fixtureFiles
        (bbcCacheFileName "2024-10-19")).isSome = true
    ∧ (getBbcFixtures satNoon
        (cacheBbcFixtures satNoon DMState.empty gateFailingBatch
          (some "2024-10-19")).2
        "2024-10-19" none).1 = some gateFailingBatch := by
  decide

/-- Claim C1 (amended): the Validation Gate runs in the scraper's save path
(`BBCSportScraper._save_cache_data`), not inside the put operation: for every
clock, state, date and batch in which some record has a string field with
more than 10 combined `<`/`>` characters, or a string field longer than 1000
characters, or lacks `league`/`home_team`/`away_team`/`kickoff` as non-empty
strings, `_save_cache_data` leaves the store unchanged, and when the store
held no entry for that key a subsequent get reports a miss. -/
theorem c1_gate_runs_in_scraper_save_path (now : Nat) (s : DMState)
    (batch : List PyDict) (date lg : String)
    (hbad : validateScrapedMatches batch = false) :
    saveCacheData now s batch date lg = s
    ∧ (lookupA s.fixtureFiles (bbcCacheFileName date) = none →
        ∀ t, (getBbcFixtures t (saveCacheData now s batch date lg) date none).1
          = none) := by
  refine ⟨by simp [saveCacheData, hbad], ?_⟩
  intro hmiss t
  simp [saveCacheData, hbad, getBbcFixtures, bbcReadFileName, hmiss]

/-- Witness for C1: the amended theorem applied to the gate-failing batch on
the empty store. -/
theorem c1_gate_witness :
    saveCacheData satNoon DMState.empty gateFailingBatch "2024-10-19"
        "ALL_LEAGUES" = DMState.empty
    ∧ (lookupA DMState.empty.fixtureFiles (bbcCacheFileName "2024-10-19") = none →
        ∀ t, (getBbcFixtures t
          (saveCacheData satNoon DMState.empty gateFailingBatch "2024-10-19"
            "ALL_LEAGUES") "2024-10-19" none).1 = none) :=
  c1_gate_runs_in_scraper_save_path satNoon DMState.empty gateFailingBatch
    "2024-10-19" "ALL_LEAGUES" (by decide)

/-! ## Claim C2 -/

/-- Claim C2: a structurally valid payload cached at time T (the put writes;
the memory tier held no entry for the date) carries
`expires_at = cached_at + 72h`; under a date that passes the read-time
date-sanity window, a get at `T + 71h59m` returns the payload and a get at
`T + 72h01m` reports a miss. -/
theorem c2_ttl_boundary (now : Nat) (s : DMState) (fixtures : List PyDict)
    (date : String)
    (hmem : lookupA s.memCache (memoryCacheKey "bbc_fixtures" date) = none)
    (hvalid : validateFixtureData fixtures = true)
    (hsan : dateSanityOk (now + 4319) date = true) :
    (∃ cf, lookupA (cacheBbcFixtures now s fixtures (some date)).2.fixtureFiles
        (bbcCacheFileName date) = some cf
      ∧ cf.metadata.cached_at = now
      ∧ cf.metadata.expires_at = cf.metadata.cached_at + 72 * 60)
    ∧ (getBbcFixtures (now + 4319)
        (cacheBbcFixtures now s fixtures (some date)).2 date none).1
        = some fixtures
    ∧ (getBbcFixtures (now + 4321)
        (cacheBbcFixtures now s fixtures (some date)).2 date none).1
        = none := by
  have hw := cacheWrite_eq now s fixtures date hmem
  have hlk : lookupA (cacheBbcFixtures now s fixtures (some date)).2.fixtureFiles
      (bbcCacheFileName date)
      = some { metadata := { cached_at := now, expires_at := now + 72 * 60,
                             ttl_hours := 24, date := date },
               fixtures := fixtures } := by
    rw [hw]
    exact lookupA_insertA_self _ _ _
  refine ⟨⟨_, hlk, rfl, rfl⟩, ?_, ?_⟩
  · cases hpd : parseDate date with
    | none => simp [dateSanityOk, hpd] at hsan
    | some ymd =>
      obtain ⟨y, m, d⟩ := ymd
      simp only [dateSanityOk, hpd, Bool.and_eq_true, Bool.not_eq_eq_eq_not,
        Bool.not_true, decide_eq_false_iff_not] at hsan
      have hnexp : ¬ (now + 4319 > now + 72 * 60) := by omega
      simp [getBbcFixtures, bbcReadFileName, hlk, hnexp, hpd, hsan.1, hsan.2,
        hvalid]
  · have hexp : now + 4321 > now + 72 * 60 := by omega
    simp [getBbcFixtures, bbcReadFileName, hlk, hexp]

/-- Witness for C2: put on Thursday 2024-10-17 12:00 for date 2024-10-19;
the reads land on Sunday 11:59 (hit) and 12:01 (miss). -/
theorem c2_ttl_witness :
    (∃ cf, lookupA (cacheBbcFixtures thuNoon DMState.empty goodBatch
        (some "2024-10-19")).2.fixtureFiles
        (bbcCacheFileName "2024-10-19") = some cf
      ∧ cf.metadata.cached_at = thuNoon
      ∧ cf.metadata.expires_at = cf.metadata.cached_at + 72 * 60)
    ∧ (getBbcFixtures (thuNoon + 4319)
        (cacheBbcFixtures thuNoon DMState.empty goodBatch
          (some "2024-10-19")).2 "2024-10-19" none).1 = some goodBatch
    ∧ (getBbcFixtures (thuNoon + 4321)
        (cacheBbcFixtures thuNoon DMState.empty goodBatch
          (some "2024-10-19")).2 "2024-10-19" none).1 = none :=
  c2_ttl_boundary thuNoon DMState.empty goodBatch "2024-10-19" (by decide)
    (by decide) (by decide)

/-! ## Claim C10 -/

/-- Claim C10: every fixture cache file written by the put operation records
`ttl_hours = 24` in its metadata while `expires_at = cached_at + 72h`; the
recorded `ttl_hours` never matches the expiry interval that the reader
actually enforces through `expires_at`. -/
theorem c10_ttl_hours_mismatch (now : Nat) (s : DMState)
    (fixtures : List PyDict) (date : String)
    (hmem : lookupA s.memCache (memoryCacheKey "bbc_fixtures" date) = none) :
    ∃ cf, lookupA (cacheBbcFixtures now s fixtures (some date)).2.fixtureFiles
        (bbcCacheFileName date) = some cf
      ∧ cf.metadata.ttl_hours = 24
      ∧ cf.metadata.expires_at = cf.metadata.cached_at + 72 * 60
      ∧ cf.metadata.ttl_hours * 60 ≠ cf.metadata.expires_at - cf.metadata.cached_at := by
  have hw := cacheWrite_eq now s fixtures date hmem
  refine ⟨_, by rw [hw]; exact lookupA_insertA_self _ _ _, rfl, rfl, ?_⟩
  simp only
  omega

/-- Witness for C10. -/
theorem c10_ttl_hours_witness :
    ∃ cf, lookupA (cacheBbcFixtures satNoon DMState.empty goodBatch
        (some "2024-10-19")).2.fixtureFiles
        (bbcCacheFileName "2024-10-19") = some cf
      ∧ cf.metadata.ttl_hours = 24
      ∧ cf.metadata.expires_at = cf.metadata.cached_at + 72 * 60
      ∧ cf.metadata.ttl_hours * 60 ≠ cf.metadata.expires_at - cf.metadata.cached_at :=
  c10_ttl_hours_mismatch satNoon DMState.empty goodBatch "2024-10-19"
    (by decide)

/-! ## Claim C3 -/

/-- Claim C3: `get_current_prediction_week` returns today on a Saturday (any
time of day), the Saturday six days ahead on a Sunday, and the Saturday
`5 - weekday()` days ahead on Monday–Friday; in particular `"2024-10-19"` on
Saturday 2024-10-19, `"2024-10-26"` on Sunday 2024-10-20 and `"2024-10-26"`
on Friday 2024-10-25, at every time of day. -/
theorem c3_prediction_week (now : Nat) :
    (weekdayOfDays (now / 1440) = 5 →
      getCurrentPredictionWeek now = formatCivil (civilFromDays (now / 1440)))
    ∧ (weekdayOfDays (now / 1440) = 6 →
      getCurrentPredictionWeek now
        = formatCivil (civilFromDays (now / 1440 + 6)))
    ∧ (weekdayOfDays (now / 1440) < 5 →
      getCurrentPredictionWeek now
        = formatCivil (civilFromDays
            (now / 1440 + (5 - weekdayOfDays (now / 1440)))))
    ∧ (∀ t, t < 1440 →
        getCurrentPredictionWeek (daysFromCivil 2024 10 19 * 1440 + t)
          = "2024-10-19")
    ∧ (∀ t, t < 1440 →
        getCurrentPredictionWeek (daysFromCivil 2024 10 20 * 1440 + t)
          = "2024-10-26")
    ∧ (∀ t, t < 1440 →
        getCurrentPredictionWeek (daysFromCivil 2024 10 25 * 1440 + t)
          = "2024-10-26") := by
  have hday : ∀ (D t : Nat), t < 1440 → (D * 1440 + t) / 1440 = D := by
    intro D t ht
    rw [Nat.mul_comm, Nat.mul_add_div (by omega)]
    simp [Nat.div_eq_of_lt ht]
  refine ⟨?_, ?_, ?_, ?_, ?_, ?_⟩
  · intro h
    simp [getCurrentPredictionWeek, h]
  · intro h
    simp [getCurrentPredictionWeek, h]
  · intro h
    have h5 : weekdayOfDays (now / 1440) ≠ 5 := by omega
    have h6 : weekdayOfDays (now / 1440) ≠ 6 := by omega
    simp [getCurrentPredictionWeek, h5, h6]
  · intro t ht
    simp only [getCurrentPredictionWeek, hday _ t ht]
    decide
  · intro t ht
    simp only [getCurrentPredictionWeek, hday _ t ht]
    decide
  · intro t ht
    simp only [getCurrentPredictionWeek, hday _ t ht]
    decide

/-- Witness for C3: Saturday 2024-10-19 at 12:00. -/
theorem c3_prediction_week_witness :
    getCurrentPredictionWeek (daysFromCivil 2024 10 19 * 1440 + 720)
      = "2024-10-19" :=
  (c3_prediction_week 0).2.2.2.1 720 (by decide)

/-! ## Claim C9 -/

/-- Counterexample to C9 as stated: on a store populated only through the put
operation, a get for the non-`None` league `""` does not return `None` —
Python truthiness sends the empty string to the league-less file name, so the
read returns the cached payload. -/
theorem c9_empty_league_hits_generic_file :
    (some "" : Option String) ≠ none
    ∧ (getBbcFixtures satNoon
        (cacheBbcFixtures satNoon DMState.empty goodBatch
          (some "2024-10-19")).2 "2024-10-19" (some "")).1
        = some goodBatch := by
  decide

/-- Claim C9 (amended): for every date and every league that is a non-empty
string, on a store whose fixture files all carry put-created names
(`bbc_cache_<d>.json` with `d` free of underscores, as every `%Y-%m-%d` date
is), `get_bbc_fixtures` returns `None`: the league-scoped read looks only for
`bbc_cache_<date>_<league>.json`, which the put path never creates. -/
theorem c9_league_scoped_get_misses (s : DMState)
    (hput : ∀ p ∈ s.fixtureFiles,
      ∃ d, p.1 = "bbc_cache_" ++ d ++ ".json" ∧ '_' ∉ d.data)
    (now : Nat) (date l : String) (hl : l ≠ "") :
    (getBbcFixtures now s date (some l)).1 = none := by
  have hlk : lookupA s.fixtureFiles (bbcReadFileName date (some l)) = none := by
    cases hc : lookupA s.fixtureFiles (bbcReadFileName date (some l)) with
    | none => rfl
    | some cf =>
      exfalso
      obtain ⟨d, hname, hnou⟩ := hput _ (mem_of_lookupA hc)
      simp only [bbcReadFileName, hl, if_neg hl] at hname
      have hdata := congrArg String.data hname
      simp only [String.data_append] at hdata
      have hjson : ("bbc_cache_".data ++ (date.data ++ ("_".data
          ++ (pyLower (pyReplace l " " "_")).data))) ++ ".json".data
          = ("bbc_cache_".data ++ d.data) ++ ".json".data := by
        simpa [List.append_assoc] using hdata
      have hcancel := List.append_cancel_right hjson
      have hd : d.data = date.data ++ ("_".data
          ++ (pyLower (pyReplace l " " "_")).data) :=
        (List.append_cancel_left hcancel).symm
      apply hnou
      rw [hd]
      have : '_' ∈ "_".data := by decide
      simp [List.mem_append, this]
  simp [getBbcFixtures, hlk]

/-- Witness for C9: a fully concrete put-only store read with league
`"Premier League"`. -/
theorem c9_league_scoped_witness :
    (getBbcFixtures satNoon
      (cacheBbcFixtures satNoon DMState.empty goodBatch
        (some "2024-10-19")).2 "2024-10-19" (some "Premier League")).1
      = none :=
  c9_league_scoped_get_misses _
    (by
      intro p hp
      have hf : (cacheBbcFixtures satNoon DMState.empty goodBatch
          (some "2024-10-19")).2.fixtureFiles
          = [("bbc_cache_2024-10-19.json",
              { metadata := { cached_at := satNoon,
                              expires_at := satNoon + 72 * 60,
                              ttl_hours := 24, date := "2024-10-19" },
                fixtures := goodBatch })] := by decide
      rw [hf] at hp
      simp only [List.mem_singleton] at hp
      subst hp
      exact ⟨"2024-10-19", by decide, by decide⟩)
    satNoon "2024-10-19" "Premier League" (by decide)

/-! ## Parser lemmas -/

theorem firstSome_eq_some {α β : Type} (f : α → Option β) (l : List α) (b : β)
    (h : firstSome f l = some b) : ∃ a ∈ l, f a = some b := by
  induction l with
  | nil => simp [firstSome] at h
  | cons a rest ih =>
    simp only [firstSome] at h
    cases hf : f a with
    | some b2 =>
      rw [hf] at h
      simp only [Option.some.injEq] at h
      exact ⟨a, by simp, by rw [hf, h]⟩
    | none =>
      rw [hf] at h
      obtain ⟨a2, ha2, hfa2⟩ := ih h
      exact ⟨a2, by simp [ha2], hfa2⟩

theorem champEventMatch_kickoff (lg : String) (ev : ChampEvent) (m : PyDict)
    (h : champEventMatch lg ev = some m) :
    lookupA m "kickoff" = some (.str "15:00") := by
  simp only [champEventMatch] at h
  split at h
  · simp at h
  · split at h
    · simp at h
    · split at h
      · rename_i hk
        simp only [Option.some.injEq] at h
        subst h
        simp [lookupA, hk]
      · simp at h

theorem parseChampionship_kickoff (el : MatchElement) (lg : String)
    (m : PyDict) (h : parseChampionshipMatchData el lg = some m) :
    lookupA m "kickoff" = some (.str "15:00") := by
  simp only [parseChampionshipMatchData] at h
  obtain ⟨groups, _, h2⟩ := firstSome_eq_some _ _ _ h
  obtain ⟨g, _, h3⟩ := firstSome_eq_some _ _ _ h2
  obtain ⟨ev, _, h4⟩ := firstSome_eq_some _ _ _ h3
  exact champEventMatch_kickoff _ _ _ h4

/-! ## Claim C6 -/

/-- Counterexample to C6 as stated: in fixtures mode the unified single-page
parse (`_parse_unified_match_data`) returns a record whose kickoff is
`"12:30"` — it never restricts the captured kickoff to 15:00. -/
theorem c6_unified_parse_keeps_non_1500 :
    parseUnifiedMatchData elPL1230 Mode.fixtures = some recPL1230
    ∧ lookupA recPL1230 "kickoff" = some (.str "12:30")
    ∧ PyVal.str "12:30" ≠ PyVal.str "15:00" := by
  decide

/-- Claim C6 (amended): in fixtures mode the text-pattern strategy and the
structured-JSON (Championship) strategy of `_parse_match_data` return only
records with kickoff exactly `"15:00"` (everything else is discarded); the
unified single-page parse carries no such restriction — its 15:00 filtering
happens downstream, in `scrape_saturday_3pm_fixtures`. -/
theorem c6_fixtures_parsers_keep_only_1500 :
    (∀ el lg m, parseMatchData el lg Mode.fixtures = some m →
        lookupA m "kickoff" = some (.str "15:00"))
    ∧ (∀ el lg m, parseChampionshipMatchData el lg = some m →
        lookupA m "kickoff" = some (.str "15:00")) := by
  refine ⟨?_, fun el lg m h => parseChampionship_kickoff el lg m h⟩
  intro el lg m h
  simp only [parseMatchData] at h
  split at h
  · exact parseChampionship_kickoff _ _ _ h
  · split at h
    · simp at h
    · split at h
      · simp at h
      · split at h
        · simp at h
        · split at h
          · simp at h
          · split at h
            · simp at h
            · rename_i hk
              simp only [Option.some.injEq] at h
              subst h
              push_neg at hk
              simp [lookupA, hk]

/-- Witness for C6: the text-pattern parse of a 15:00 Premier League
element. -/
theorem c6_fixtures_parsers_witness :
    lookupA recPL1500 "kickoff" = some (.str "15:00") :=
  c6_fixtures_parsers_keep_only_1500.1 elPL1500 "Premier League" recPL1500
    (by decide)

/-! ## Claim C7 -/

/-- Counterexample to C7 as stated: two parsed matches that agree on home
team, away team and kickoff (differing only in attributed league) are BOTH
retained — the de-duplication key is `home_away_league`, not
`(home, away, kickoff)`. -/
theorem c7_same_triple_both_kept :
    parseUnifiedMatches [] [elPL1500, elEC1500] Mode.fixtures
      = [recPL1500, recEC1500]
    ∧ lookupA recPL1500 "home_team" = lookupA recEC1500 "home_team"
    ∧ lookupA recPL1500 "away_team" = lookupA recEC1500 "away_team"
    ∧ lookupA recPL1500 "kickoff" = lookupA recEC1500 "kickoff"
    ∧ recPL1500 ≠ recEC1500 := by
  decide

/-- Claim C7 (amended): within one unified parse, de-duplication keys parsed
matches by the string `f"{home_team}_{away_team}_{league}"`: of two parsed
matches with equal keys only the first is retained; two parsed matches with
different keys are both retained. -/
theorem c7_dedup_key_home_away_league (el1 el2 : MatchElement) (mode : Mode)
    (m1 m2 : PyDict)
    (h1 : parseUnifiedMatchData el1 mode = some m1)
    (h2 : parseUnifiedMatchData el2 mode = some m2) :
    parseUnifiedMatches [] [el1, el2] mode
      = if matchKeyOf m1 = matchKeyOf m2 then [m1] else [m1, m2] := by
  by_cases hk : matchKeyOf m1 = matchKeyOf m2
  · simp [parseUnifiedMatches, h1, h2, hk, extractMatchesFromJson,
      List.contains]
  · simp only [parseUnifiedMatches, List.foldl, h1, h2, if_neg hk]
    have hne : (matchKeyOf m1 == matchKeyOf m2) = false := by
      simp [hk]
    simp [List.contains, hne, Ne.symm hk]

/-- Witness for C7: two parses with the same home, away and league but
different kickoffs collapse to the first (the kickoff is not part of the
key). -/
theorem c7_dedup_key_witness :
    parseUnifiedMatches [] [elPL1500, elPL1230] Mode.fixtures
      = if matchKeyOf recPL1500 = matchKeyOf recPL1230 then [recPL1500]
        else [recPL1500, recPL1230] :=
  c7_dedup_key_home_away_league elPL1500 elPL1230 Mode.fixtures recPL1500
    recPL1230 (by decide) (by decide)

/-! ## BTTS fold lemmas -/

/-- One step of the BTTS loop preserves the invariant "a joined record that
finished without both teams scoring forces a positive failure count". -/
theorem bttsStep_invariant (live : List PyDict)
    (acc : List (String × SelectorStatus) × Nat × Nat × Nat)
    (kv : String × PyDict)
    (hacc : (∃ p ∈ acc.1, p.2.status = .str "finished"
        ∧ p.2.btts_detected = false) → 0 < acc.2.2.2) :
    (∃ p ∈ (bttsStep live acc kv).1, p.2.status = .str "finished"
        ∧ p.2.btts_detected = false) → 0 < (bttsStep live acc kv).2.2.2 := by
  rintro ⟨p, hp, hbad⟩
  simp only [bttsStep] at hp ⊢
  split
  · rename_i mi heq
    rw [heq] at hp
    simp only at hp
    rcases mem_insertA hp with h1 | h1
    · subst h1
      simp only at hbad
      obtain ⟨hst, hbt⟩ := hbad
      simp only [hbt, Bool.false_eq_true, if_false, hst, if_true]
      omega
    · have h0 := hacc ⟨p, h1, hbad⟩
      split
      · exact h0
      · split
        · exact Nat.succ_pos _
        · exact h0
  · rename_i heq
    rw [heq] at hp
    simp only at hp
    rcases mem_insertA hp with h1 | h1
    · subst h1
      simp at hbad
    · exact hacc ⟨p, h1, hbad⟩

theorem bttsFold_invariant (live : List PyDict)
    (sels : List (String × PyDict))
    (acc : List (String × SelectorStatus) × Nat × Nat × Nat)
    (hacc : (∃ p ∈ acc.1, p.2.status = .str "finished"
        ∧ p.2.btts_detected = false) → 0 < acc.2.2.2) :
    (∃ p ∈ (sels.foldl (bttsStep live) acc).1,
        p.2.status = .str "finished" ∧ p.2.btts_detected = false) →
      0 < (sels.foldl (bttsStep live) acc).2.2.2 := by
  induction sels generalizing acc with
  | nil => simpa using hacc
  | cons kv rest ih =>
    simp only [List.foldl]
    exact ih _ (bttsStep_invariant live acc kv hacc)

/-! ## Claim C5 -/

/-- Claim C5: the derived accumulator status is `FAILED` whenever some
joined selector record finished without both teams scoring; the single
tracked selection joined to a finished 1-0 yields `FAILED`; joined to a 1-1
it yields `COMPLETE_SUCCESS`; and with no failures the status falls through
`COMPLETE_SUCCESS` / `PARTIAL_SUCCESS` / `IN_PROGRESS` / `NOT_STARTED` by
counting successes and pendings. -/
theorem c5_btts_accumulator :
    (∀ selections live,
      (∃ p ∈ (getBttsSummary selections live).selectors,
          p.2.status = .str "finished" ∧ p.2.btts_detected = false) →
        (getBttsSummary selections live).accumulator_status = "FAILED")
    ∧ (getBttsSummary [("Glynny", selArsenal)] [liveOneNil]).accumulator_status
        = "FAILED"
    ∧ (getBttsSummary [("Glynny", selArsenal)] [liveOneOne]).accumulator_status
        = "COMPLETE_SUCCESS"
    ∧ (∀ selections live,
        (getBttsSummary selections live).btts_failed = 0 →
        (getBttsSummary selections live).accumulator_status =
          (if (getBttsSummary selections live).btts_success
              = (getBttsSummary selections live).total_matches
           then "COMPLETE_SUCCESS"
           else if 0 < (getBttsSummary selections live).btts_success
           then "PARTIAL_SUCCESS"
           else if 0 < (getBttsSummary selections live).btts_pending
           then "IN_PROGRESS"
           else "NOT_STARTED")) := by
  refine ⟨?_, by decide, by decide, ?_⟩
  · intro selections live hex
    have hinit : (∃ p ∈ ([] : List (String × SelectorStatus)),
        p.2.status = .str "finished" ∧ p.2.btts_detected = false) →
        0 < (([], 0, 0, 0) :
          List (String × SelectorStatus) × Nat × Nat × Nat).2.2.2 := by
      rintro ⟨p, hp, _⟩
      simp at hp
    simp only [getBttsSummary] at hex ⊢
    have hf := bttsFold_invariant live selections ([], 0, 0, 0) hinit hex
    exact if_pos hf
  · intro selections live h
    simp only [getBttsSummary] at h ⊢
    rw [if_neg (by omega)]

/-- Witness for C5: the failure rule applied to the concrete finished 1-0
join. -/
theorem c5_btts_witness :
    (getBttsSummary [("Glynny", selArsenal)] [liveOneNil]).accumulator_status
      = "FAILED" :=
  c5_btts_accumulator.1 [("Glynny", selArsenal)] [liveOneNil]
    ⟨("Glynny", ⟨some (.str "Arsenal"), some (.str "Chelsea"), false,
        .str "finished", .int 1, .int 0⟩), by decide⟩

/-! ## Selection-enhancement lemmas -/

theorem lookupA_enhanceEntry_of_ne (now : Nat) (e : PyDict) (k : String)
    (hk : k ≠ "assigned_at") :
    lookupA (enhanceEntry now e) k = lookupA e k := by
  unfold enhanceEntry
  split
  · rfl
  · rw [lookupA_append]
    cases h : lookupA e k with
    | none => simp [lookupA, Ne.symm hk]
    | some v => simp

theorem lookupA_enhanceSelections (now : Nat) (S : List (String × PyDict))
    (k : String) :
    lookupA (enhanceSelections now S) k
      = (lookupA S k).map (enhanceEntry now) := by
  induction S with
  | nil => simp [enhanceSelections, lookupA]
  | cons p rest ih =>
    obtain ⟨k1, v1⟩ := p
    by_cases h : k1 = k
    · simp [enhanceSelections, lookupA, h]
    · simpa [enhanceSelections, lookupA, h] using ih

theorem removeA_enhanceSelections (now : Nat) (S : List (String × PyDict))
    (k : String) :
    removeA (enhanceSelections now S) k
      = enhanceSelections now (removeA S k) := by
  induction S with
  | nil => simp [enhanceSelections, removeA]
  | cons p rest ih =>
    obtain ⟨k1, v1⟩ := p
    by_cases h : k1 = k
    · simp [enhanceSelections, removeA, h]
    · simpa [enhanceSelections, removeA, h] using ih

theorem map_fst_enhanceSelections (now : Nat) (S : List (String × PyDict)) :
    (enhanceSelections now S).map Prod.fst = S.map Prod.fst := by
  induction S with
  | nil => simp [enhanceSelections]
  | cons p rest ih => simp [enhanceSelections, ih]

theorem mem_enhanceSelections {now : Nat} {S : List (String × PyDict)}
    {p : String × PyDict} (h : p ∈ enhanceSelections now S) :
    ∃ q ∈ S, p = (q.1, enhanceEntry now q.2) := by
  simp only [enhanceSelections, List.mem_map] at h
  obtain ⟨q, hq, hpq⟩ := h
  exact ⟨q, hq, hpq.symm⟩

theorem validSelection_enhanceEntry (now : Nat) (e : PyDict)
    (h : validSelection e = true) :
    validSelection (enhanceEntry now e) = true := by
  have h1 := lookupA_enhanceEntry_of_ne now e "home_team" (by decide)
  have h2 := lookupA_enhanceEntry_of_ne now e "away_team" (by decide)
  have h3 := lookupA_enhanceEntry_of_ne now e "prediction" (by decide)
  have h4 := lookupA_enhanceEntry_of_ne now e "confidence" (by decide)
  simp only [validSelection, List.all_cons, List.all_nil] at h ⊢
  rw [h1, h2, h3, h4]
  exact h

theorem validateSelections_append (l1 l2 : List (String × PyDict)) :
    validateSelections (l1 ++ l2)
      = (validateSelections l1 && validateSelections l2) := by
  simp [validateSelections, List.all_append]

theorem validateSelections_enhance (now : Nat) (S : List (String × PyDict))
    (h : validateSelections S = true) :
    validateSelections (enhanceSelections now S) = true := by
  simp only [validateSelections, enhanceSelections, List.all_map,
    List.all_eq_true] at h ⊢
  intro kv hkv
  exact validSelection_enhanceEntry now kv.2 (h kv hkv)

theorem validateSelections_removeA (S : List (String × PyDict)) (k : String)
    (h : validateSelections S = true) :
    validateSelections (removeA S k) = true := by
  simp only [validateSelections, List.all_eq_true] at h ⊢
  intro kv hkv
  exact h kv (mem_removeA_subset hkv)

theorem map_fst_removeA {α : Type} (l : List (String × α)) (k : String) :
    (removeA l k).map Prod.fst = (l.map Prod.fst).erase k := by
  induction l with
  | nil => simp [removeA]
  | cons p rest ih =>
    obtain ⟨k1, v1⟩ := p
    by_cases h : k1 = k
    · subst h
      simp [removeA, List.erase_cons]
    · simp [removeA, h, List.erase_cons, Ne.symm h, ih]

/-! ## Assignment-path lemmas -/

/-- `load_selections` on a cold memory tier returns the enhanced stored map
and refreshes the tier. -/
theorem loadSelections_eq (now : Nat) (s : DMState) (file : SelFile)
    (hmem : lookupA s.memCache
      (memoryCacheKey "selections" (getCurrentPredictionWeek now)) = none)
    (hfile : lookupA s.selectionFiles
      ("week_" ++ getCurrentPredictionWeek now ++ ".json") = some file)
    (hvalid : validateSelections file.selections = true) :
    loadSelections now s
      = (enhanceSelections now file.selections,
         setMemoryCache now s
           (memoryCacheKey "selections" (getCurrentPredictionWeek now))
           (.sel file.selections)) := by
  simp [loadSelections, loadWeeklySelections, getMemoryCache, hmem, hfile,
    hvalid]

/-- Saving right after a load always succeeds and leaves the week file
holding exactly the saved map (whether the identical-payload shortcut fires
or not). -/
theorem saveWeeklySelections_after_load (now : Nat) (s : DMState)
    (file : SelFile) (map2 : List (String × PyDict)) (date : String)
    (hfile : lookupA s.selectionFiles ("week_" ++ date ++ ".json") = some file)
    (hval2 : validateSelections map2 = true) :
    (saveWeeklySelections now
        (setMemoryCache now s (memoryCacheKey "selections" date)
          (.sel file.selections)) map2 (some date)).1 = true
    ∧ ∃ fileOut,
        lookupA (saveWeeklySelections now
          (setMemoryCache now s (memoryCacheKey "selections" date)
            (.sel file.selections)) map2 (some date)).2.selectionFiles
          ("week_" ++ date ++ ".json") = some fileOut
        ∧ fileOut.selections = map2 := by
  by_cases hEq : file.selections = map2
  · subst hEq
    refine ⟨?_, file, ?_, rfl⟩
    · simp [saveWeeklySelections, hval2, getMemoryCache, setMemoryCache,
        lookupA_insertA_self, memoryCacheTtl]
    · simp [saveWeeklySelections, hval2, getMemoryCache, setMemoryCache,
        lookupA_insertA_self, memoryCacheTtl, hfile]
  · refine ⟨?_, ⟨{ created_at := now, version := "1.0", date := date }, map2⟩,
      ?_, rfl⟩
    · simp [saveWeeklySelections, hval2, getMemoryCache, setMemoryCache,
        lookupA_insertA_self, memoryCacheTtl, hEq]
    · simp [saveWeeklySelections, hval2, getMemoryCache, setMemoryCache,
        lookupA_insertA_self, memoryCacheTtl, hEq]

/-! ## Claim C8 -/

/-- Counterexample to C8 as stated: reassigning Glynny a new match mutates
Danny's stored entry — the load path stamps a missing `assigned_at` field
onto every entry and the save persists it, so the other selector's stored
entry is not left unchanged. -/
theorem c8_other_entry_gains_assigned_at :
    (assignMatch satNoon c8StartState "Premier League_Leeds United_Hull City"
        "Glynny" [fixLeeds]).1 = .success
    ∧ ((lookupA (assignMatch satNoon c8StartState
          "Premier League_Leeds United_Hull City" "Glynny"
          [fixLeeds]).2.selectionFiles "week_2024-10-19.json").map fun f =>
            lookupA f.selections "Danny")
        = some (some (selDannyOld ++ [("assigned_at", .str (toString satNoon))]))
    ∧ selDannyOld ++ [("assigned_at", .str (toString satNoon))] ≠ selDannyOld := by
  decide

/-- Claim C8 (amended): assigning selector A a new match (present in the
scrape) after an existing assignment replaces A's prior entry — exactly one
entry for A afterwards, holding the new match with prediction `TBD` and
confidence 5 — and preserves every other selector's `home_team`,
`away_team`, `prediction` and `confidence`; other entries are otherwise
untouched except that a missing `assigned_at` timestamp is stamped on. -/
theorem c8_reassignment_replaces_and_preserves (now : Nat) (s : DMState)
    (file : SelFile) (A matchId : String) (scraped : List PyDict) (md : PyDict)
    (hmem : lookupA s.memCache
      (memoryCacheKey "selections" (getCurrentPredictionWeek now)) = none)
    (hfile : lookupA s.selectionFiles
      ("week_" ++ getCurrentPredictionWeek now ++ ".json") = some file)
    (hvalid : validateSelections file.selections = true)
    (hnodup : (file.selections.map Prod.fst).Nodup)
    (hnoid : ∀ p ∈ file.selections, lookupA p.2 "id" = none)
    (hA : SELECTORS.contains A = true)
    (hold : (lookupA file.selections A).isSome = true)
    (hfix : lookupA s.fixtureFiles
      (bbcCacheFileName (getCurrentPredictionWeek now)) = none)
    (hmid : matchId ≠ "")
    (hscr : scraped.find? (fun m => matchIdOf m = matchId) = some md) :
    (assignMatch now s matchId A scraped).1 = .success
    ∧ ∃ file2,
        lookupA (assignMatch now s matchId A scraped).2.selectionFiles
          ("week_" ++ getCurrentPredictionWeek now ++ ".json") = some file2
        ∧ lookupA file2.selections A
            = some [("home_team", getValD md "home_team" (.str "")),
                    ("away_team", getValD md "away_team" (.str "")),
                    ("prediction", .str "TBD"), ("confidence", .int 5)]
        ∧ (file2.selections.map Prod.fst).count A = 1
        ∧ ∀ B e, B ≠ A → lookupA file.selections B = some e →
            ∃ e2, lookupA file2.selections B = some e2
              ∧ lookupA e2 "home_team" = lookupA e "home_team"
              ∧ lookupA e2 "away_team" = lookupA e "away_team"
              ∧ lookupA e2 "prediction" = lookupA e "prediction"
              ∧ lookupA e2 "confidence" = lookupA e "confidence" := by
  have hAne : A ≠ "" := by
    intro hcon
    rw [hcon] at hA
    revert hA
    decide
  have hload := loadSelections_eq now s file hmem hfile hvalid
  have hremsome : (lookupA (enhanceSelections now file.selections) A).isSome
      = true := by
    rw [lookupA_enhanceSelections]
    cases h : lookupA file.selections A with
    | none => rw [h] at hold; simp at hold
    | some e => simp
  have hrem := removeA_enhanceSelections now file.selections A
  have hany : (enhanceSelections now (removeA file.selections A)).any
      (fun kv => lookupA kv.2 "id" = some (.str matchId)) = false := by
    rw [List.any_eq_false]
    intro kv hkv
    obtain ⟨q, hq, hkvq⟩ := mem_enhanceSelections hkv
    subst hkvq
    simp only [decide_eq_true_eq]
    rw [lookupA_enhanceEntry_of_ne now q.2 "id" (by decide),
      hnoid q (mem_removeA_subset hq)]
    simp
  have hget : getBbcFixtures now
      (setMemoryCache now s
        (memoryCacheKey "selections" (getCurrentPredictionWeek now))
        (.sel file.selections))
      (getCurrentPredictionWeek now) none
      = (none, setMemoryCache now s
          (memoryCacheKey "selections" (getCurrentPredictionWeek now))
          (.sel file.selections)) := by
    simp [getBbcFixtures, bbcReadFileName, setMemoryCache, hfix]
  have hinsnone : lookupA (enhanceSelections now (removeA file.selections A)) A
      = none := by
    rw [lookupA_enhanceSelections,
      lookupA_removeA_self_of_nodup _ _ hnodup]
    rfl
  have hins := insertA_of_lookupA_none
    (enhanceSelections now (removeA file.selections A)) A
    [("home_team", getValD md "home_team" (.str "")),
     ("away_team", getValD md "away_team" (.str "")),
     ("prediction", .str "TBD"), ("confidence", .int 5)] hinsnone
  have hval2 : validateSelections
      (enhanceSelections now (removeA file.selections A)
        ++ [(A, [("home_team", getValD md "home_team" (.str "")),
                 ("away_team", getValD md "away_team" (.str "")),
                 ("prediction", .str "TBD"), ("confidence", .int 5)])])
      = true := by
    rw [validateSelections_append,
      validateSelections_enhance _ _ (validateSelections_removeA _ _ hvalid)]
    simp [validateSelections, validSelection, lookupA]
  have hsave := saveWeeklySelections_after_load now s file
    (enhanceSelections now (removeA file.selections A)
      ++ [(A, [("home_team", getValD md "home_team" (.str "")),
               ("away_team", getValD md "away_team" (.str "")),
               ("prediction", .str "TBD"), ("confidence", .int 5)])])
    (getCurrentPredictionWeek now) hfile hval2
  have hassign : assignMatch now s matchId A scraped
      = (.success, (saveWeeklySelections now
          (setMemoryCache now s
            (memoryCacheKey "selections" (getCurrentPredictionWeek now))
            (.sel file.selections))
          (enhanceSelections now (removeA file.selections A)
            ++ [(A, [("home_team", getValD md "home_team" (.str "")),
                     ("away_team", getValD md "away_team" (.str "")),
                     ("prediction", .str "TBD"), ("confidence", .int 5)])])
          (some (getCurrentPredictionWeek now))).2) := by
    simp only [assignMatch, hmid, hAne, hA, hload, hremsome, hrem, hany,
      hget, hscr, hins, saveSelections]
    simp [hany, hins, hsave.1]
  obtain ⟨fileOut, hlkOut, hselOut⟩ := hsave.2
  refine ⟨by rw [hassign], fileOut, by rw [hassign]; exact hlkOut, ?_, ?_, ?_⟩
  · rw [hselOut, lookupA_append, hinsnone]
    simp [lookupA]
  · rw [hselOut]
    have hAmem : A ∈ file.selections.map Prod.fst := by
      cases h : lookupA file.selections A with
      | none => rw [h] at hold; simp at hold
      | some e => exact List.mem_map_of_mem Prod.fst (mem_of_lookupA h)
    have hcount1 : (file.selections.map Prod.fst).count A = 1 :=
      List.count_eq_one_of_mem hnodup hAmem
    rw [List.map_append, List.count_append, map_fst_enhanceSelections,
      map_fst_removeA]
    rw [List.count_erase_self, hcount1]
    simp
  · intro B e hB hBe
    refine ⟨enhanceEntry now e, ?_,
      lookupA_enhanceEntry_of_ne now e "home_team" (by decide),
      lookupA_enhanceEntry_of_ne now e "away_team" (by decide),
      lookupA_enhanceEntry_of_ne now e "prediction" (by decide),
      lookupA_enhanceEntry_of_ne now e "confidence" (by decide)⟩
    rw [hselOut, lookupA_append, lookupA_enhanceSelections,
      lookupA_removeA_of_ne _ _ _ hB, hBe]
    rfl

/-- Witness for C8: the amended theorem applied to the concrete two-selector
store. -/
theorem c8_reassignment_witness :
    (assignMatch satNoon c8StartState "Premier League_Leeds United_Hull City"
        "Glynny" [fixLeeds]).1 = .success
    ∧ ∃ file2,
        lookupA (assignMatch satNoon c8StartState
          "Premier League_Leeds United_Hull City" "Glynny"
          [fixLeeds]).2.selectionFiles
          ("week_" ++ getCurrentPredictionWeek satNoon ++ ".json") = some file2
        ∧ lookupA file2.selections "Glynny"
            = some [("home_team", getValD fixLeeds "home_team" (.str "")),
                    ("away_team", getValD fixLeeds "away_team" (.str "")),
                    ("prediction", .str "TBD"), ("confidence", .int 5)]
        ∧ (file2.selections.map Prod.fst).count "Glynny" = 1
        ∧ ∀ B e, B ≠ "Glynny" →
            lookupA [("Glynny", selGlynnyOld), ("Danny", selDannyOld)] B
              = some e →
            ∃ e2, lookupA file2.selections B = some e2
              ∧ lookupA e2 "home_team" = lookupA e "home_team"
              ∧ lookupA e2 "away_team" = lookupA e "away_team"
              ∧ lookupA e2 "prediction" = lookupA e "prediction"
              ∧ lookupA e2 "confidence" = lookupA e "confidence" :=
  c8_reassignment_replaces_and_preserves satNoon c8StartState
    { metadata := { created_at := 0, version := "1.0", date := "2024-10-19" },
      selections := [("Glynny", selGlynnyOld), ("Danny", selDannyOld)] }
    "Glynny" "Premier League_Leeds United_Hull City" [fixLeeds] fixLeeds
    (by decide) (by decide) (by decide) (by decide)
    (by
      intro p hp
      simp only [List.mem_cons, List.not_mem_nil, or_false] at hp
      rcases hp with h | h
      · subst h; decide
      · subst h; decide)
    (by decide) (by decide) (by decide) (by decide) (by decide)

/-! ## Claim C4 -/

/-- Claim C4 (code bug, evaluated at the failing input): after Glynny is
assigned match `Premier League_Arsenal_Chelsea`, assigning the SAME match id
to Danny succeeds instead of failing with the "already assigned" error, and
the stored map ends with both selectors holding Arsenal–Chelsea.  The guard
`match.get("id") == match_id` (app.py:660) can never fire because the
entries written by `assign_match` (app.py:722-727) carry no `id` field. -/
theorem c4_second_assignment_of_same_match_succeeds :
    (assignMatch satNoon DMState.empty "Premier League_Arsenal_Chelsea"
        "Glynny" [fixArsenal]).1 = .success
    ∧ (assignMatch satNoon
        (assignMatch satNoon DMState.empty "Premier League_Arsenal_Chelsea"
          "Glynny" [fixArsenal]).2
        "Premier League_Arsenal_Chelsea" "Danny" [fixArsenal]).1 = .success
    ∧ ((lookupA (assignMatch satNoon
          (assignMatch satNoon DMState.empty "Premier League_Arsenal_Chelsea"
            "Glynny" [fixArsenal]).2
          "Premier League_Arsenal_Chelsea" "Danny"
          [fixArsenal]).2.selectionFiles "week_2024-10-19.json").map fun f =>
            ((lookupA f.selections "Glynny").map fun e =>
                lookupA e "home_team",
             (lookupA f.selections "Danny").map fun e =>
                lookupA e "home_team"))
        = some (some (some (.str "Arsenal")), some (some (.str "Arsenal"))) := by
  decide

end AccaTracker
